import Mathlib

/-!
Shallow embedding of `tfrutil/client.py`: the validation-and-dispatch core of
the tensorflow-recorder repository.  Pandas DataFrames are modelled as lists
of named, dtyped columns; Python exceptions become an explicit error type
returned through `Except`; the external beam collaborator and the logging
scope are modelled by an event trace emitted by `create_tfrecords`.
-/

deriving instance DecidableEq for Except

/-- Python `s.startswith(p)`, computed on the character lists of the two
strings. -/
def strStartsWith (s p : String) : Bool := p.data.isPrefixOf s.data

/-- Python `s.endswith(p)`, computed on the character lists of the two
strings. -/
def strEndsWith (s p : String) : Bool := p.data.isSuffixOf s.data

/-- Python exception kinds raised by the client module, together with their
message where one is constructed (messages are transliterated without
quoting/brace characters). -/
inductive PyError
  | attributeError (msg : String)
  | valueError (msg : String)
  | keyError (key : String)
  | notImplementedError
deriving DecidableEq, Repr

/-- Pandas dtypes, restricted to the kinds the client code can observe. -/
inductive Dtype
  | int64
  | float64
  | object
  | boolean
deriving DecidableEq, Repr

/-- One cell of a DataFrame column: a string, an integer, or a missing
value (NaN). -/
inductive Cell
  | cStr (s : String)
  | cInt (n : Int)
  | cNA
deriving DecidableEq, Repr

/-- A named DataFrame column with its dtype and cell contents. -/
structure Column where
  name : String
  dtype : Dtype
  cells : List Cell
deriving DecidableEq, Repr

/-- A pandas DataFrame, column-oriented: row i of the frame is the i-th cell
of every column.  Row order is the order of each column's cell list. -/
structure DataFrame where
  cols : List Column
deriving DecidableEq, Repr

/-- The column labels of the frame, in order (pandas `df.columns`). -/
def DataFrame.columns (df : DataFrame) : List String :=
  df.cols.map (fun c => c.name)

/-- Label-based column lookup, `df[name]` for a single label (first match,
as with unique pandas column labels); `none` models a KeyError. -/
def DataFrame.getCol (df : DataFrame) (n : String) : Option Column :=
  df.cols.find? (fun c => c.name == n)

/-- Number of rows of the frame (all columns are assumed aligned; an empty
frame has zero rows). -/
def DataFrame.nrows (df : DataFrame) : Nat :=
  match df.cols with
  | [] => 0
  | c :: _ => c.cells.length

/-- Modelled from the spec: the module `tfrutil/constants.py` is not among the
provided sources.  Per the spec, the image-location column is named
image_uri. -/
def IMAGE_URI_KEY : String := "image_uri"

/-- Modelled from the spec: `tfrutil/constants.py` is not among the provided
sources.  Per the spec, the label column is named label. -/
def LABEL_KEY : String := "label"

/-- Modelled from the spec: `tfrutil/constants.py` is not among the provided
sources.  Per the spec, the split column is named split. -/
def SPLIT_KEY : String := "split"

/-- Modelled from the spec: `tfrutil/constants.py` is not among the provided
sources.  Per the spec, the canonical column list is exactly
image_uri, label, split in that order. -/
def IMAGE_CSV_COLUMNS : List String := [IMAGE_URI_KEY, LABEL_KEY, SPLIT_KEY]

/-- Python truthiness test for an optional string: `not v` is true exactly
when the value is None or the empty string. -/
def falsy : Option String → Bool
  | none => true
  | some s => s == ""

/-- Pandas `df[col].str.startswith(prefix).all()` applied per cell with the
remote-storage scheme: a string cell is tested literally; a non-string cell
yields NaN under `.str`, which is truthy under `Series.all()`. -/
def cellStartsWithGs : Cell → Bool
  | Cell.cStr s => strStartsWith s "gs://"
  | _ => true

/-- `_validate_data` from client.py: verifies the required image csv columns
exist in the data and appear in the canonical order. -/
def _validate_data (df : DataFrame) : Except PyError Unit :=
  if IMAGE_URI_KEY ∉ df.columns then
    Except.error (PyError.attributeError
      "Dataframe must contain image_uri column \x7b\x7d.")
  else if LABEL_KEY ∉ df.columns then
    Except.error (PyError.attributeError "Dataframe must contain label column.")
  else if SPLIT_KEY ∉ df.columns then
    Except.error (PyError.attributeError "Dataframe must contain split column.")
  else if df.columns ≠ IMAGE_CSV_COLUMNS then
    Except.error (PyError.attributeError
      "Dataframe column order must be [image_uri, label, split]")
  else
    Except.ok ()

/-- `_validate_runner` from client.py: validates that an appropriate beam
runner is chosen, that a DataFlowRunner only sees gs:// image locations, and
that a DataFlowRunner is given a truthy project and region. -/
def _validate_runner (df : DataFrame) (runner : String)
    (project region : Option String) : Except PyError Unit :=
  if !(["DataFlowRunner", "DirectRunner"].contains runner) then
    Except.error (PyError.attributeError
      ("Runner " ++ runner ++ " is not supported."))
  else
    match df.getCol IMAGE_URI_KEY with
    | none => Except.error (PyError.keyError IMAGE_URI_KEY)
    | some icol =>
      let gcs_path := icol.cells.all cellStartsWithGs
      if (runner == "DataFlowRunner") && !gcs_path then
        Except.error (PyError.attributeError
          "DataFlowRunner requires GCS image locations.")
      else if (runner == "DataFlowRunner") && (falsy project || falsy region) then
        Except.error (PyError.attributeError
          ("DataFlowRunner requires project region and region project is "
            ++ "and region is"))
      else
        Except.ok ()

/-- `_is_directory` from client.py: a phase-2 stub that ignores its argument
and always returns False. -/
def _is_directory (_input_data : String) : Bool :=
  false

/-- Header interpretation accepted by `read_csv`/`to_dataframe`: Python
`'infer'`, an explicit row index, or `None`. -/
inductive Header
  | inferHdr
  | row (n : Nat)
  | noHdr
deriving DecidableEq, Repr

/-- Contents of a delimited file: its rows, each a list of raw string
fields. -/
structure CsvFile where
  rows : List (List String)
deriving DecidableEq, Repr

/-- The readable world seen through `tf.io.gfile.GFile`: a map from path
(local or gs:// remote, read transparently) to file contents. -/
def Filesystem : Type := String → CsvFile

/-- Assembles a DataFrame from explicit column names and row-major data, as
the pandas CSV reader does: column i takes field i of every data row,
missing fields become NaN, and parsed columns carry the object dtype. -/
def mkDataFrame (ns : List String) (data : List (List String)) : DataFrame :=
  ⟨ns.enum.map (fun p =>
    { name := p.2
      dtype := Dtype.object
      cells := data.map (fun r =>
        match r.get? p.1 with
        | some s => Cell.cStr s
        | none => Cell.cNA) })⟩

/-- Positional integer column labels pandas assigns when a file is read with
no header row and no names, rendered as strings. -/
def defaultColNames (file : CsvFile) : List String :=
  (List.range (file.rows.headD []).length).map (fun i => toString i)

/-- Modelled from the spec: pandas `read_csv` itself is external to this
repository.  Per the spec's delimited-file reading interface, it accepts an
optional header specification and an optional explicit column-name list:
with explicit names the result's columns are exactly those names (a header
row index additionally skips the rows through that index, and names with
header infer behaves as no header); with no names, header infer or a row
index takes the column labels from that row, and header None numbers the
columns positionally. -/
def pd_read_csv (file : CsvFile) (names : Option (List String))
    (header : Header) : DataFrame :=
  match names with
  | some ns =>
    match header with
    | Header.row n => mkDataFrame ns (file.rows.drop (n + 1))
    | _ => mkDataFrame ns file.rows
  | none =>
    match header with
    | Header.noHdr => mkDataFrame (defaultColNames file) file.rows
    | Header.inferHdr => mkDataFrame (file.rows.headD []) (file.rows.drop 1)
    | Header.row n =>
      mkDataFrame ((file.rows.drop n).headD []) (file.rows.drop (n + 1))

/-- `read_csv` from client.py: returns a DataFrame from a CSV file, falling
back to the fixed default column list when the caller passes no header and
no names. -/
def read_csv (fs : Filesystem) (csv_file : String)
    (header : Header) (names : Option (List String)) : DataFrame :=
  let names :=
    if header == Header.noHdr
        && (match names with | none => true | some ns => ns.isEmpty) then
      some IMAGE_CSV_COLUMNS
    else names
  pd_read_csv (fs csv_file) names header

/-- Label-list column selection `df[names]`: each requested label is looked
up in order; a missing label is a KeyError. -/
def selectCols (df : DataFrame) : List String → Except PyError (List Column)
  | [] => Except.ok []
  | n :: ns =>
    match df.getCol n with
    | none => Except.error (PyError.keyError n)
    | some c =>
      match selectCols df ns with
      | Except.error e => Except.error e
      | Except.ok cs => Except.ok (c :: cs)

/-- Pandas `df[names]` for a list of labels: the selected columns, in the
requested order, each carried over whole (so row count and row order are
those of the source columns). -/
def select (df : DataFrame) (names : List String) : Except PyError DataFrame :=
  match selectCols df names with
  | Except.error e => Except.error e
  | Except.ok cs => Except.ok ⟨cs⟩

/-- Input accepted by `to_dataframe`: an in-memory DataFrame or a string
path. -/
inductive InputData
  | dataframe (df : DataFrame)
  | str (s : String)
deriving DecidableEq, Repr

/-- `to_dataframe` from client.py: converts `input_data` to a DataFrame.  A
DataFrame input is projected through a truthy `names` list or passed through
unchanged; a string ending in .csv is read as a delimited file; a string
that is a directory would raise NotImplementedError (dead, since
`_is_directory` is a stub); anything else raises ValueError naming the
offending type. -/
def to_dataframe (fs : Filesystem) (input_data : InputData)
    (header : Header) (names : Option (List String)) :
    Except PyError DataFrame :=
  match input_data with
  | InputData.dataframe df =>
    match names with
    | some ns => if ns.isEmpty then Except.ok df else select df ns
    | none => Except.ok df
  | InputData.str s =>
    if strEndsWith s ".csv" then
      Except.ok (read_csv fs s header names)
    else if _is_directory s then
      Except.error PyError.notImplementedError
    else
      Except.error (PyError.valueError "Unsupported input_data: <class str>")

/-- Modelled from the spec: pandas `pd.api.types.is_integer_dtype` is
external to this repository; it holds exactly of the integer dtypes. -/
def is_integer_dtype : Dtype → Bool
  | Dtype.int64 => true
  | _ => false

/-- The run configuration handed to the external `build_pipeline`
collaborator. -/
structure BuildConfig where
  jobLabel : String
  runner : String
  project : Option String
  region : Option String
  outputDir : String
  compression : Option String
  numShards : Nat
  dataflowOptions : Option (List (String × String))
  integerLabel : Bool
deriving DecidableEq, Repr

/-- Terminal state of a submitted beam job. -/
inductive JobState
  | succeeded
  | failed
deriving DecidableEq, Repr

/-- Behaviour of one execution of the external collaborator's job handle:
`p.run()` may raise, `wait_until_finish()` may raise, or the job runs to a
terminal state and the wait returns. -/
inductive ExecBehavior
  | raisesOnRun (e : PyError)
  | raisesOnWait (e : PyError)
  | finishes (st : JobState)
deriving DecidableEq, Repr

/-- Observable events of one `create_tfrecords` invocation, in the order
they occur: successful normalization, each validation passing, the
diagnostic-log scope opening (`logging.basicConfig` on the fixed /tmp
path), job-handle construction by `build_pipeline`, `p.run()`, the
terminal state observed by `wait_until_finish()`, and `logging.shutdown()`. -/
inductive Event
  | normalized
  | dataValidated
  | runnerValidated
  | loggingOpened
  | pipelineBuilt (cfg : BuildConfig)
  | pipelineRun
  | waitFinished (st : JobState)
  | loggingShutdown
deriving DecidableEq, Repr

/-- How many times the diagnostic-log scope was shut down in a trace. -/
def countShutdown (tr : List Event) : Nat :=
  tr.countP (fun e =>
    match e with
    | Event.loggingShutdown => true
    | _ => false)

/-- `create_tfrecords` from client.py: normalizes the input, validates
schema then runner policy, opens the diagnostic-log scope, infers the
integer-label flag from the label column dtype, requests a job handle from
`build_pipeline`, runs it and blocks until it finishes, then shuts logging
down.  A raised error propagates immediately (there is no try/finally), so
the returned trace records exactly the steps that executed before the
error.  The external job's behaviour is the `exec` parameter. -/
def create_tfrecords (fs : Filesystem) (input_data : InputData)
    (output_dir : String) (header : Header) (names : Option (List String))
    (runner : String) (project region : Option String)
    (dataflow_options : Option (List (String × String)))
    (job_label : String) (compression : Option String) (num_shards : Nat)
    (exec : ExecBehavior) : List Event × Option PyError :=
  match to_dataframe fs input_data header names with
  | Except.error e => ([], some e)
  | Except.ok df =>
    match _validate_data df with
    | Except.error e => ([Event.normalized], some e)
    | Except.ok _ =>
      match _validate_runner df runner project region with
      | Except.error e => ([Event.normalized, Event.dataValidated], some e)
      | Except.ok _ =>
        let ev3 := [Event.normalized, Event.dataValidated,
                    Event.runnerValidated, Event.loggingOpened]
        match df.getCol LABEL_KEY with
        | none => (ev3, some (PyError.keyError LABEL_KEY))
        | some labelCol =>
          let cfg : BuildConfig :=
            { jobLabel := job_label
              runner := runner
              project := project
              region := region
              outputDir := output_dir
              compression := compression
              numShards := num_shards
              dataflowOptions := dataflow_options
              integerLabel := is_integer_dtype labelCol.dtype }
          let pre := ev3 ++ [Event.pipelineBuilt cfg]
          match exec with
          | ExecBehavior.raisesOnRun e => (pre, some e)
          | ExecBehavior.raisesOnWait e => (pre ++ [Event.pipelineRun], some e)
          | ExecBehavior.finishes st =>
            (pre ++ [Event.pipelineRun, Event.waitFinished st,
                     Event.loggingShutdown], none)

/-- The image_uri column contents of a table (empty when the column is
absent). -/
def imageCells (df : DataFrame) : List Cell :=
  match df.getCol IMAGE_URI_KEY with
  | some c => c.cells
  | none => []

/-- Whether a cell holds a string value. -/
def isStrCell : Cell → Bool
  | Cell.cStr _ => true
  | _ => false

/-! Concrete sample data used by witnesses and counterexamples. -/

/-- A filesystem with empty files everywhere (file contents are irrelevant
to the DataFrame-input claims). -/
def sampleFs : Filesystem := fun _ => ⟨[]⟩

/-- A one-row schema-valid table with a remote image location and an
integer label. -/
def goodDf : DataFrame := ⟨[
  { name := "image_uri", dtype := Dtype.object,
    cells := [Cell.cStr "gs://bucket/a.jpg"] },
  { name := "label", dtype := Dtype.int64, cells := [Cell.cInt 1] },
  { name := "split", dtype := Dtype.object, cells := [Cell.cStr "train"] }]⟩

/-- A table with the required columns reordered (label before image_uri). -/
def reorderedDf : DataFrame := ⟨[
  { name := "label", dtype := Dtype.int64, cells := [Cell.cInt 1] },
  { name := "image_uri", dtype := Dtype.object,
    cells := [Cell.cStr "gs://bucket/a.jpg"] },
  { name := "split", dtype := Dtype.object, cells := [Cell.cStr "train"] }]⟩

/-- The empty table: canonical columns, zero rows. -/
def emptyDf : DataFrame := ⟨[
  { name := "image_uri", dtype := Dtype.object, cells := [] },
  { name := "label", dtype := Dtype.int64, cells := [] },
  { name := "split", dtype := Dtype.object, cells := [] }]⟩

/-- A two-row schema-valid table whose second image location is local
rather than remote. -/
def mixedDf : DataFrame := ⟨[
  { name := "image_uri", dtype := Dtype.object,
    cells := [Cell.cStr "gs://bucket/a.jpg", Cell.cStr "/local/b.jpg"] },
  { name := "label", dtype := Dtype.object,
    cells := [Cell.cStr "cat", Cell.cStr "dog"] },
  { name := "split", dtype := Dtype.object,
    cells := [Cell.cStr "train", Cell.cStr "test"] }]⟩

/-- A concrete invocation of `create_tfrecords` on a valid table whose
submitted job raises from `p.run()`. -/
def runRaiseInvocation : List Event × Option PyError :=
  create_tfrecords sampleFs (InputData.dataframe goodDf) "/out"
    Header.inferHdr none "DirectRunner" none none none "create-tfrecords"
    (some "gzip") 0
    (ExecBehavior.raisesOnRun (PyError.valueError "pipeline failed"))

/-! Helper lemmas about the validators. -/

/-- Schema validation succeeds exactly on the canonical column list. -/
theorem validate_data_ok_iff (df : DataFrame) :
    _validate_data df = Except.ok () ↔ df.columns = IMAGE_CSV_COLUMNS := by
  by_cases hc : df.columns = IMAGE_CSV_COLUMNS
  · unfold _validate_data
    rw [hc]
    decide
  · refine iff_of_false ?_ hc
    intro h
    unfold _validate_data at h
    split_ifs at h

/-- A non-canonical column list always makes schema validation raise. -/
theorem validate_data_error_of_ne (df : DataFrame)
    (h : df.columns ≠ IMAGE_CSV_COLUMNS) :
    ∃ e, _validate_data df = Except.error e := by
  cases hv : _validate_data df with
  | error e => exact ⟨e, rfl⟩
  | ok u =>
    cases u
    exact absurd ((validate_data_ok_iff df).mp hv) h

/-- A canonical-column table consists of exactly three columns, named
image_uri, label and split, and label-based lookup finds each of them. -/
theorem cols_of_canonical (df : DataFrame)
    (h : df.columns = IMAGE_CSV_COLUMNS) :
    ∃ c1 c2 c3, df.cols = [c1, c2, c3] ∧
      c1.name = IMAGE_URI_KEY ∧ c2.name = LABEL_KEY ∧ c3.name = SPLIT_KEY ∧
      df.getCol IMAGE_URI_KEY = some c1 ∧ df.getCol LABEL_KEY = some c2 := by
  obtain ⟨cols⟩ := df
  simp only [DataFrame.columns, IMAGE_CSV_COLUMNS, IMAGE_URI_KEY, LABEL_KEY,
    SPLIT_KEY] at h
  rcases cols with _ | ⟨c1, _ | ⟨c2, _ | ⟨c3, _ | ⟨c4, rest⟩⟩⟩⟩
  · simp at h
  · simp at h
  · simp at h
  case mk.cons.cons.cons.nil =>
    simp only [List.map_cons, List.map_nil, List.cons.injEq, and_true] at h
    obtain ⟨h1, h2, h3⟩ := h
    refine ⟨c1, c2, c3, rfl, h1, h2, h3, ?_, ?_⟩
    · simp [DataFrame.getCol, List.find?, h1, IMAGE_URI_KEY]
    · simp [DataFrame.getCol, List.find?, h1, h2, IMAGE_URI_KEY, LABEL_KEY]
  case mk.cons.cons.cons.cons =>
    simp at h

/-- Selecting a list of labels all present in the frame succeeds, returns
the columns under exactly those labels in that order, and every returned
column is a column of the source frame (carried over whole). -/
theorem selectCols_ok (df : DataFrame) (names : List String)
    (h : ∀ n ∈ names, n ∈ df.columns) :
    ∃ cs, selectCols df names = Except.ok cs ∧
      cs.map (fun c => c.name) = names ∧ ∀ c ∈ cs, c ∈ df.cols := by
  induction names with
  | nil => exact ⟨[], rfl, rfl, by simp⟩
  | cons n ns ih =>
    have hn : n ∈ df.columns := h n (by simp)
    have hfind : ∃ c, df.getCol n = some c ∧ c.name = n ∧ c ∈ df.cols := by
      simp only [DataFrame.columns, List.mem_map] at hn
      obtain ⟨c, hc, hcn⟩ := hn
      have hs : (df.cols.find? (fun c => c.name == n)).isSome :=
        List.find?_isSome.mpr ⟨c, hc, by simp [hcn]⟩
      obtain ⟨c', hc'⟩ := Option.isSome_iff_exists.mp hs
      have hname := List.find?_some hc'
      exact ⟨c', hc', by simpa using hname, List.mem_of_find?_eq_some hc'⟩
    obtain ⟨c, hgc, hcn, hcm⟩ := hfind
    obtain ⟨cs, hcs, hmap, hmem⟩ := ih (fun m hm => h m (by simp [hm]))
    refine ⟨c :: cs, ?_, ?_, ?_⟩
    · simp [selectCols, hgc, hcs]
    · simp [hmap, hcn]
    · intro x hx
      rcases List.mem_cons.mp hx with rfl | hx
      · exact hcm
      · exact hmem x hx

/-- The only error label-list selection can raise is a KeyError for a
missing label. -/
theorem selectCols_error_is_keyError (df : DataFrame) (names : List String)
    (e : PyError) (h : selectCols df names = Except.error e) :
    ∃ n, e = PyError.keyError n := by
  induction names with
  | nil => simp [selectCols] at h
  | cons n ns ih =>
    simp only [selectCols] at h
    cases hgc : df.getCol n with
    | none =>
      rw [hgc] at h
      exact ⟨n, (Except.error.injEq _ _).mp h.symm⟩
    | some c =>
      rw [hgc] at h
      cases hcs : selectCols df ns with
      | error e' =>
        rw [hcs] at h
        cases h
        exact ih hcs
      | ok cs => rw [hcs] at h; cases h

/-- The columns of an assembled frame are exactly the provided names. -/
theorem mkDataFrame_columns (ns : List String) (data : List (List String)) :
    (mkDataFrame ns data).columns = ns := by
  simp only [mkDataFrame, DataFrame.columns, List.map_map]
  have : ((fun c => Column.name c) ∘ fun p : Nat × String =>
      ({ name := p.2, dtype := Dtype.object,
         cells := data.map (fun r =>
           match r.get? p.1 with
           | some s => Cell.cStr s
           | none => Cell.cNA) } : Column)) = Prod.snd := rfl
  rw [this, List.enum_map_snd]

/-- C1: for every table whose column list is not exactly
[image_uri, label, split] in that order, schema validation
(`_validate_data`) raises an error, and `create_tfrecords` with that table
as its normalized input fails before any job-handle construction: no
`build_pipeline` call appears in the trace. -/
theorem schema_gate_blocks_noncanonical_columns (df : DataFrame)
    (h : df.columns ≠ IMAGE_CSV_COLUMNS) :
    (∃ e, _validate_data df = Except.error e) ∧
    ∀ fs input output_dir header names runner project region
      dataflow_options job_label compression num_shards exec,
      to_dataframe fs input header names = Except.ok df →
      ∃ e tr,
        create_tfrecords fs input output_dir header names runner project
          region dataflow_options job_label compression num_shards exec =
          (tr, some e) ∧
        ∀ cfg, Event.pipelineBuilt cfg ∉ tr := by
  obtain ⟨e, he⟩ := validate_data_error_of_ne df h
  refine ⟨⟨e, he⟩, ?_⟩
  intro fs input output_dir header names runner project region
    dataflow_options job_label compression num_shards exec hnorm
  refine ⟨e, [Event.normalized], ?_, ?_⟩
  · simp [create_tfrecords, hnorm, he]
  · intro cfg
    simp

/-- Witness for C1 at the table whose columns are reordered to
[label, image_uri, split]. -/
theorem schema_gate_blocks_noncanonical_columns_witness :
    (∃ e, _validate_data reorderedDf = Except.error e) ∧
    ∃ e tr,
      create_tfrecords sampleFs (InputData.dataframe reorderedDf) "/out"
        Header.inferHdr none "DirectRunner" none none none "create-tfrecords"
        (some "gzip") 0 (ExecBehavior.finishes JobState.succeeded) =
        (tr, some e) ∧
      ∀ cfg, Event.pipelineBuilt cfg ∉ tr := by
  have h := schema_gate_blocks_noncanonical_columns reorderedDf (by decide)
  exact ⟨h.1, h.2 sampleFs (InputData.dataframe reorderedDf) "/out"
    Header.inferHdr none "DirectRunner" none none none "create-tfrecords"
    (some "gzip") 0 (ExecBehavior.finishes JobState.succeeded) (by decide)⟩

/-- C2: on a schema-valid table with string image locations, runner
DataFlowRunner and truthy project and region, runner-policy validation
raises an error exactly when some image_uri value does not start with
gs:// (so making every value remote makes it pass). -/
theorem validate_runner_gcs_iff (df : DataFrame)
    (project region : Option String)
    (hcols : df.columns = IMAGE_CSV_COLUMNS)
    (hstr : (imageCells df).all isStrCell = true)
    (hp : falsy project = false) (hr : falsy region = false) :
    (∃ e, _validate_runner df "DataFlowRunner" project region =
        Except.error e) ↔
    ∃ s, Cell.cStr s ∈ imageCells df ∧ strStartsWith s "gs://" = false := by
  obtain ⟨c1, c2, c3, hcols3, h1, h2, h3, himg, hlab⟩ :=
    cols_of_canonical df hcols
  have hic : imageCells df = c1.cells := by simp [imageCells, himg]
  rw [hic] at hstr ⊢
  cases hall : c1.cells.all cellStartsWithGs with
  | true =>
    have hval : _validate_runner df "DataFlowRunner" project region =
        Except.ok () := by
      simp [_validate_runner, himg, hall, hp, hr]
    refine iff_of_false ?_ ?_
    · rintro ⟨e, he⟩
      rw [hval] at he
      exact Except.noConfusion he
    · rintro ⟨s, hs, hfalse⟩
      have := List.all_eq_true.mp hall _ hs
      simp only [cellStartsWithGs] at this
      exact absurd this (by simp [hfalse])
  | false =>
    have hval : _validate_runner df "DataFlowRunner" project region =
        Except.error (PyError.attributeError
          "DataFlowRunner requires GCS image locations.") := by
      simp [_validate_runner, himg, hall]
    refine iff_of_true ⟨_, hval⟩ ?_
    obtain ⟨x, hx, hpx⟩ := List.all_eq_false.mp hall
    have hxs := List.all_eq_true.mp hstr _ hx
    cases x with
    | cStr s =>
      refine ⟨s, hx, ?_⟩
      simpa [cellStartsWithGs] using hpx
    | cInt n => simp [isStrCell] at hxs
    | cNA => simp [isStrCell] at hxs

/-- Witness for C2 at a table with one local image location, project and
region supplied. -/
theorem validate_runner_gcs_iff_witness :
    (∃ e, _validate_runner mixedDf "DataFlowRunner" (some "test-project")
        (some "us-central1") = Except.error e) ↔
    ∃ s, Cell.cStr s ∈ imageCells mixedDf ∧
      strStartsWith s "gs://" = false :=
  validate_runner_gcs_iff mixedDf (some "test-project") (some "us-central1")
    (by decide) (by decide) (by decide) (by decide)

/-- C3: on a schema-valid table whose image locations all start with gs://
and runner DataFlowRunner, runner-policy validation raises an error exactly
when the project or the region parameter is None or empty (so supplying
both non-empty makes it pass). -/
theorem validate_runner_project_region_iff (df : DataFrame)
    (project region : Option String)
    (hcols : df.columns = IMAGE_CSV_COLUMNS)
    (hgcs : (imageCells df).all cellStartsWithGs = true) :
    (∃ e, _validate_runner df "DataFlowRunner" project region =
        Except.error e) ↔
    (falsy project = true ∨ falsy region = true) := by
  obtain ⟨c1, c2, c3, hcols3, h1, h2, h3, himg, hlab⟩ :=
    cols_of_canonical df hcols
  have hic : imageCells df = c1.cells := by simp [imageCells, himg]
  rw [hic] at hgcs
  cases hpr : (falsy project || falsy region) with
  | false =>
    obtain ⟨hp, hr⟩ := Bool.or_eq_false_iff.mp hpr
    have hval : _validate_runner df "DataFlowRunner" project region =
        Except.ok () := by
      simp [_validate_runner, himg, hgcs, hp, hr]
    refine iff_of_false ?_ ?_
    · rintro ⟨e, he⟩
      rw [hval] at he
      exact Except.noConfusion he
    · rintro (h | h) <;> simp_all
  | true =>
    have hval : _validate_runner df "DataFlowRunner" project region =
        Except.error (PyError.attributeError
          ("DataFlowRunner requires project region and region project is "
            ++ "and region is")) := by
      simp [_validate_runner, himg, hgcs, hpr]
    exact iff_of_true ⟨_, hval⟩ (Bool.or_eq_true_iff.mp hpr)

/-- Witness for C3 at a valid remote-image table with the project
parameter absent. -/
theorem validate_runner_project_region_iff_witness :
    (∃ e, _validate_runner goodDf "DataFlowRunner" none (some "us-central1") =
        Except.error e) ↔
    (falsy none = true ∨ falsy (some "us-central1") = true) :=
  validate_runner_project_region_iff goodDf none (some "us-central1")
    (by decide) (by decide)

/-- C4: `create_tfrecords` runs normalization, then schema validation, then
runner-policy validation, in that order; a failure of any stage aborts the
invocation with that stage's error and with the trace cut at the failing
stage, and a job handle is only ever built after all three stages have
succeeded. -/
theorem create_tfrecords_validation_ordering (fs : Filesystem)
    (input : InputData) (output_dir : String) (header : Header)
    (names : Option (List String)) (runner : String)
    (project region : Option String)
    (dataflow_options : Option (List (String × String))) (job_label : String)
    (compression : Option String) (num_shards : Nat) (exec : ExecBehavior) :
    (∀ e, to_dataframe fs input header names = Except.error e →
      create_tfrecords fs input output_dir header names runner project region
        dataflow_options job_label compression num_shards exec =
        ([], some e)) ∧
    (∀ df e, to_dataframe fs input header names = Except.ok df →
      _validate_data df = Except.error e →
      create_tfrecords fs input output_dir header names runner project region
        dataflow_options job_label compression num_shards exec =
        ([Event.normalized], some e)) ∧
    (∀ df e, to_dataframe fs input header names = Except.ok df →
      _validate_data df = Except.ok () →
      _validate_runner df runner project region = Except.error e →
      create_tfrecords fs input output_dir header names runner project region
        dataflow_options job_label compression num_shards exec =
        ([Event.normalized, Event.dataValidated], some e)) ∧
    (∀ cfg, Event.pipelineBuilt cfg ∈
        (create_tfrecords fs input output_dir header names runner project
          region dataflow_options job_label compression num_shards exec).1 →
      ∃ df, to_dataframe fs input header names = Except.ok df ∧
        _validate_data df = Except.ok () ∧
        _validate_runner df runner project region = Except.ok ()) := by
  refine ⟨?_, ?_, ?_, ?_⟩
  · intro e he
    simp [create_tfrecords, he]
  · intro df e h1 h2
    simp [create_tfrecords, h1, h2]
  · intro df e h1 h2 h3
    simp [create_tfrecords, h1, h2, h3]
  · intro cfg hmem
    cases hnorm : to_dataframe fs input header names with
    | error e => simp [create_tfrecords, hnorm] at hmem
    | ok df =>
      cases hvd : _validate_data df with
      | error e => simp [create_tfrecords, hnorm, hvd] at hmem
      | ok u =>
        cases u
        cases hvr : _validate_runner df runner project region with
        | error e => simp [create_tfrecords, hnorm, hvd, hvr] at hmem
        | ok v =>
          cases v
          exact ⟨df, rfl, hvd, hvr⟩

/-- Witness for C4: at a reordered-column table the invocation stops right
after normalization with the schema-order error. -/
theorem create_tfrecords_validation_ordering_witness :
    create_tfrecords sampleFs (InputData.dataframe reorderedDf) "/out"
      Header.inferHdr none "DirectRunner" none none none "create-tfrecords"
      (some "gzip") 0 (ExecBehavior.finishes JobState.succeeded) =
      ([Event.normalized], some (PyError.attributeError
        "Dataframe column order must be [image_uri, label, split]")) :=
  (create_tfrecords_validation_ordering sampleFs
    (InputData.dataframe reorderedDf) "/out" Header.inferHdr none
    "DirectRunner" none none none "create-tfrecords" (some "gzip") 0
    (ExecBehavior.finishes JobState.succeeded)).2.1 reorderedDf
    (PyError.attributeError
      "Dataframe column order must be [image_uri, label, split]")
    (by decide) (by decide)

/-- C5 counterexample: at the concrete directory path /data/images (a
string not ending in .csv), `to_dataframe` raises the unsupported-input
ValueError and not NotImplementedError, because the `_is_directory` stub
reports False for every input. -/
theorem directory_input_unsupported_cex :
    to_dataframe sampleFs (InputData.str "/data/images") Header.inferHdr
      none =
      Except.error (PyError.valueError "Unsupported input_data: <class str>")
    ∧ to_dataframe sampleFs (InputData.str "/data/images") Header.inferHdr
      none ≠ Except.error PyError.notImplementedError := by
  decide

/-- C5 as amended: every string input that does not end in .csv — directory
paths included — fails normalization with the unsupported-input-type
ValueError, and no input at all can reach the NotImplementedError branch,
which is dead because `_is_directory` always returns False. -/
theorem non_csv_string_unsupported (fs : Filesystem) (s : String)
    (header : Header) (names : Option (List String))
    (h : strEndsWith s ".csv" = false) :
    to_dataframe fs (InputData.str s) header names =
      Except.error (PyError.valueError "Unsupported input_data: <class str>")
    ∧ ∀ input, to_dataframe fs input header names ≠
      Except.error PyError.notImplementedError := by
  constructor
  · simp [to_dataframe, h, _is_directory]
  · intro input hcontra
    cases input with
    | dataframe df =>
      cases names with
      | none =>
        simp only [to_dataframe] at hcontra
        exact Except.noConfusion hcontra
      | some ns =>
        simp only [to_dataframe] at hcontra
        by_cases hns : ns.isEmpty = true
        · rw [if_pos hns] at hcontra
          exact Except.noConfusion hcontra
        · rw [if_neg hns] at hcontra
          simp only [select] at hcontra
          cases hsel : selectCols df ns with
          | error e =>
            rw [hsel] at hcontra
            obtain ⟨n, hn⟩ := selectCols_error_is_keyError df ns e hsel
            rw [hn] at hcontra
            cases hcontra
          | ok cs =>
            rw [hsel] at hcontra
            exact Except.noConfusion hcontra
    | str s' =>
      simp only [to_dataframe, _is_directory] at hcontra
      by_cases hcsv : strEndsWith s' ".csv" = true
      · rw [if_pos hcsv] at hcontra
        exact Except.noConfusion hcontra
      · rw [if_neg hcsv] at hcontra
        simp at hcontra

/-- Witness for the amended C5 at the non-.csv path imagesdir. -/
theorem non_csv_string_unsupported_witness :
    to_dataframe sampleFs (InputData.str "imagesdir") Header.inferHdr none =
      Except.error (PyError.valueError "Unsupported input_data: <class str>")
    ∧ ∀ input, to_dataframe sampleFs input Header.inferHdr none ≠
      Except.error PyError.notImplementedError :=
  non_csv_string_unsupported sampleFs "imagesdir" Header.inferHdr none
    (by decide)

/-- C6 counterexample: on a concrete valid invocation whose job raises from
`p.run()`, the diagnostic-log scope is opened but `logging.shutdown()` is
never reached, so the scope is not closed exactly once on that exit path. -/
theorem logging_shutdown_missed_on_run_raise_cex :
    Event.loggingOpened ∈ runRaiseInvocation.1 ∧
    countShutdown runRaiseInvocation.1 = 0 ∧
    runRaiseInvocation.2 = some (PyError.valueError "pipeline failed") := by
  decide

/-- C6 as amended: the diagnostic-log scope is opened only after all three
validations succeed; it is closed exactly once on the paths where the job
runs and `wait_until_finish` returns (whatever terminal state it reports),
but it is never closed when `p.run()` or `wait_until_finish` raises, since
there is no try/finally around the execution calls. -/
theorem logging_scope_amended (fs : Filesystem) (input : InputData)
    (output_dir : String) (header : Header) (names : Option (List String))
    (runner : String) (project region : Option String)
    (dataflow_options : Option (List (String × String))) (job_label : String)
    (compression : Option String) (num_shards : Nat) (exec : ExecBehavior) :
    (Event.loggingOpened ∈
        (create_tfrecords fs input output_dir header names runner project
          region dataflow_options job_label compression num_shards exec).1 →
      ∃ df, to_dataframe fs input header names = Except.ok df ∧
        _validate_data df = Except.ok () ∧
        _validate_runner df runner project region = Except.ok ()) ∧
    (∀ st df, exec = ExecBehavior.finishes st →
      to_dataframe fs input header names = Except.ok df →
      _validate_data df = Except.ok () →
      _validate_runner df runner project region = Except.ok () →
      countShutdown
        (create_tfrecords fs input output_dir header names runner project
          region dataflow_options job_label compression num_shards exec).1 =
        1) ∧
    (∀ e, exec = ExecBehavior.raisesOnRun e ∨
        exec = ExecBehavior.raisesOnWait e →
      countShutdown
        (create_tfrecords fs input output_dir header names runner project
          region dataflow_options job_label compression num_shards exec).1 =
        0) := by
  refine ⟨?_, ?_, ?_⟩
  · intro hmem
    cases hnorm : to_dataframe fs input header names with
    | error e => simp [create_tfrecords, hnorm] at hmem
    | ok df =>
      cases hvd : _validate_data df with
      | error e => simp [create_tfrecords, hnorm, hvd] at hmem
      | ok u =>
        cases u
        cases hvr : _validate_runner df runner project region with
        | error e => simp [create_tfrecords, hnorm, hvd, hvr] at hmem
        | ok v =>
          cases v
          exact ⟨df, rfl, hvd, hvr⟩
  · intro st df hexec hnorm hvd hvr
    subst hexec
    have hcols := (validate_data_ok_iff df).mp hvd
    obtain ⟨c1, c2, c3, hcols3, h1, h2, h3, himg, hlabel⟩ :=
      cols_of_canonical df hcols
    simp [create_tfrecords, hnorm, hvd, hvr, hlabel, countShutdown,
      List.countP_cons, List.countP_nil, List.countP_append]
  · rintro e (rfl | rfl) <;>
    cases hnorm : to_dataframe fs input header names with
    | error e' => simp [create_tfrecords, hnorm, countShutdown]
    | ok df =>
      cases hvd : _validate_data df with
      | error e' => simp [create_tfrecords, hnorm, hvd, countShutdown]
      | ok u =>
        cases u
        cases hvr : _validate_runner df runner project region with
        | error e' => simp [create_tfrecords, hnorm, hvd, hvr, countShutdown]
        | ok v =>
          cases v
          cases hlabel : df.getCol LABEL_KEY with
          | none =>
            simp [create_tfrecords, hnorm, hvd, hvr, hlabel, countShutdown]
          | some c =>
            simp [create_tfrecords, hnorm, hvd, hvr, hlabel, countShutdown,
              List.countP_cons, List.countP_nil, List.countP_append]

/-- Witness for the amended C6: a finishing job on a valid table shuts the
scope exactly once. -/
theorem logging_scope_amended_witness :
    countShutdown
      (create_tfrecords sampleFs (InputData.dataframe goodDf) "/out"
        Header.inferHdr none "DirectRunner" none none none "create-tfrecords"
        (some "gzip") 0 (ExecBehavior.finishes JobState.succeeded)).1 = 1 :=
  (logging_scope_amended sampleFs (InputData.dataframe goodDf) "/out"
    Header.inferHdr none "DirectRunner" none none none "create-tfrecords"
    (some "gzip") 0 (ExecBehavior.finishes JobState.succeeded)).2.1
    JobState.succeeded goodDf rfl (by decide) (by decide) (by decide)

/-- C7: normalizing an in-memory table through a non-empty column
projection yields exactly the projected columns in the requested order,
each carried over whole from the input (so row count and row order are
preserved); with no projection the table is returned unchanged. -/
theorem to_dataframe_projection (fs : Filesystem) (df : DataFrame)
    (header : Header) (names : List String)
    (hne : names ≠ [])
    (hsub : ∀ n ∈ names, n ∈ df.columns)
    (hrect : ∀ c ∈ df.cols, c.cells.length = df.nrows) :
    (∃ df', to_dataframe fs (InputData.dataframe df) header (some names) =
        Except.ok df' ∧
      df'.columns = names ∧
      (∀ c ∈ df'.cols, c ∈ df.cols) ∧
      df'.nrows = df.nrows) ∧
    to_dataframe fs (InputData.dataframe df) header none = Except.ok df := by
  obtain ⟨cs, hcs, hmap, hmem⟩ := selectCols_ok df names hsub
  have hne' : names.isEmpty = false := by
    cases names with
    | nil => exact absurd rfl hne
    | cons a l => rfl
  refine ⟨⟨⟨cs⟩, ?_, ?_, hmem, ?_⟩, rfl⟩
  · simp [to_dataframe, hne', select, hcs]
  · simpa [DataFrame.columns] using hmap
  · cases hcsl : cs with
    | nil =>
      rw [hcsl] at hmap
      simp only [List.map_nil] at hmap
      exact absurd hmap.symm hne
    | cons c rest =>
      have hcmem : c ∈ df.cols :=
        hmem c (by rw [hcsl]; exact List.mem_cons_self c rest)
      simpa [DataFrame.nrows] using hrect c hcmem

/-- Witness for C7: projecting the sample table onto [label, image_uri]. -/
theorem to_dataframe_projection_witness :
    (∃ df', to_dataframe sampleFs (InputData.dataframe goodDf) Header.inferHdr
        (some ["label", "image_uri"]) = Except.ok df' ∧
      df'.columns = ["label", "image_uri"] ∧
      (∀ c ∈ df'.cols, c ∈ goodDf.cols) ∧
      df'.nrows = goodDf.nrows) ∧
    to_dataframe sampleFs (InputData.dataframe goodDf) Header.inferHdr none =
      Except.ok goodDf :=
  to_dataframe_projection sampleFs goodDf Header.inferHdr
    ["label", "image_uri"] (by decide) (by decide) (by decide)

/-- C8: reading any delimited file with header None and no explicit names
(None or an empty list) substitutes the fixed default column list, so the
result carries exactly the canonical three-column schema. -/
theorem read_csv_default_columns (fs : Filesystem) (csv_file : String) :
    (read_csv fs csv_file Header.noHdr none).columns = IMAGE_CSV_COLUMNS ∧
    (read_csv fs csv_file Header.noHdr (some [])).columns =
      IMAGE_CSV_COLUMNS := by
  constructor <;> simp [read_csv, pd_read_csv, mkDataFrame_columns]

/-- C9: once all validations pass, the integer-label flag handed to
`build_pipeline` is exactly the integer-dtype test of the label column's
dtype: the built configuration in the trace carries that value and no
other. -/
theorem build_pipeline_receives_integer_label (fs : Filesystem)
    (input : InputData) (output_dir : String) (header : Header)
    (names : Option (List String)) (runner : String)
    (project region : Option String)
    (dataflow_options : Option (List (String × String))) (job_label : String)
    (compression : Option String) (num_shards : Nat) (exec : ExecBehavior)
    (df : DataFrame) (labelCol : Column)
    (hnorm : to_dataframe fs input header names = Except.ok df)
    (hvd : _validate_data df = Except.ok ())
    (hvr : _validate_runner df runner project region = Except.ok ())
    (hlabel : df.getCol LABEL_KEY = some labelCol) :
    (∃ cfg, Event.pipelineBuilt cfg ∈
        (create_tfrecords fs input output_dir header names runner project
          region dataflow_options job_label compression num_shards exec).1 ∧
      cfg.integerLabel = is_integer_dtype labelCol.dtype) ∧
    ∀ cfg, Event.pipelineBuilt cfg ∈
        (create_tfrecords fs input output_dir header names runner project
          region dataflow_options job_label compression num_shards exec).1 →
      cfg.integerLabel = is_integer_dtype labelCol.dtype := by
  constructor
  · refine ⟨BuildConfig.mk job_label runner project region output_dir
      compression num_shards dataflow_options
      (is_integer_dtype labelCol.dtype), ?_, rfl⟩
    cases exec <;> simp [create_tfrecords, hnorm, hvd, hvr, hlabel]
  · intro cfg hmem
    cases exec <;>
      simp [create_tfrecords, hnorm, hvd, hvr, hlabel] at hmem <;>
      simp [hmem]

/-- Witness for C9 at the sample table, whose label column dtype is
int64. -/
theorem build_pipeline_receives_integer_label_witness :
    ∃ cfg, Event.pipelineBuilt cfg ∈
        (create_tfrecords sampleFs (InputData.dataframe goodDf) "/out"
          Header.inferHdr none "DirectRunner" none none none
          "create-tfrecords" (some "gzip") 0
          (ExecBehavior.finishes JobState.succeeded)).1 ∧
      cfg.integerLabel = is_integer_dtype
        (Column.mk "label" Dtype.int64 [Cell.cInt 1]).dtype :=
  (build_pipeline_receives_integer_label sampleFs
    (InputData.dataframe goodDf) "/out" Header.inferHdr none "DirectRunner"
    none none none "create-tfrecords" (some "gzip") 0
    (ExecBehavior.finishes JobState.succeeded) goodDf
    (Column.mk "label" Dtype.int64 [Cell.cInt 1])
    (by decide) (by decide) (by decide) (by decide)).1

/-- C10: the empty canonical table with runner DataFlowRunner and non-empty
project and region passes runner-policy validation (the all-remote check is
vacuous on zero rows), and the invocation proceeds all the way to job
submission. -/
theorem empty_table_dataflow_passes :
    _validate_runner emptyDf "DataFlowRunner" (some "test-project")
        (some "us-central1") = Except.ok () ∧
    (create_tfrecords sampleFs (InputData.dataframe emptyDf) "gs://out"
        Header.inferHdr none "DataFlowRunner" (some "test-project")
        (some "us-central1") none "create-tfrecords" (some "gzip") 0
        (ExecBehavior.finishes JobState.succeeded)).1 =
      [Event.normalized, Event.dataValidated, Event.runnerValidated,
       Event.loggingOpened,
       Event.pipelineBuilt
         { jobLabel := "create-tfrecords", runner := "DataFlowRunner",
           project := some "test-project", region := some "us-central1",
           outputDir := "gs://out", compression := some "gzip",
           numShards := 0, dataflowOptions := none, integerLabel := true },
       Event.pipelineRun, Event.waitFinished JobState.succeeded,
       Event.loggingShutdown] := by
  decide
